import Mathlib

/-!
Verification development for the TUN dispatcher of the telepresence
repository (pkg/tun/dispatcher.go).

The dispatcher is embedded shallowly: Go structs become Lean structures,
the per-packet processing functions become pure Lean functions from a
dispatcher state and a parsed packet header to a new state plus a list of
observable effects (logs, buffer-pool events, handler interactions), and
the concurrent shutdown choreography becomes an explicit labelled
transition system over a system state.

Packets enter `handlePacket` as `Option Hdr`: the header codec
(pkg/tun/ip, not under src/) either fails (`none`) or yields the parsed
header view the dispatcher code reads (version, lengths, protocol,
addresses, fragmentation fields, ports, TCP flags).  The connection pool
(pkg/connpool), ICMP synthesizer (pkg/tun/icmp) and fragment reassembler
(ip.V4Header.ConcatFragments) are likewise not under src/ and are
modelled from the spec where noted.
-/

namespace TunDispatcher

/-- IP addresses are byte lists, as in Go's net.IP: length 4 for IPv4,
length 16 for IPv6 (possibly IPv4-mapped). -/
abbrev Addr := List Nat

/-- Go net.IP.To4: a 4-byte address is itself; a 16-byte IPv4-mapped
address (ten zero bytes then 0xff 0xff) yields its last 4 bytes. -/
def to4 (a : Addr) : Option Addr :=
  if a.length = 4 then some a
  else if a.length = 16 ∧ a.take 10 = List.replicate 10 0
      ∧ a.get? 10 = some 255 ∧ a.get? 11 = some 255 then
    some (a.drop 12)
  else none

/-- Go net.IP.IsLinkLocalUnicast: 169.254.0.0/16 for IPv4, fe80::/10 for
IPv6. -/
def isLinkLocalUnicast (a : Addr) : Bool :=
  match to4 a with
  | some [b0, b1, _, _] => b0 == 169 && b1 == 254
  | some _ => false
  | none =>
      a.length == 16 && a.get? 0 == some 254
        && ((a.get? 1).getD 0 &&& 192) == 128

/-- Go net.IP.IsLinkLocalMulticast: 224.0.0.0/24 for IPv4, ff02::/16 for
IPv6. -/
def isLinkLocalMulticast (a : Addr) : Bool :=
  match to4 a with
  | some [b0, b1, b2, _] => b0 == 224 && b1 == 0 && b2 == 0
  | some _ => false
  | none =>
      a.length == 16 && a.get? 0 == some 255
        && (((a.get? 1).getD 0) &&& 15) == 2

/-- The subnet-zero test of dispatcher.go line 213: the IPv4 form of the
destination exists and its last two bytes are zero. -/
def subnetZero (a : Addr) : Bool :=
  match to4 a with
  | some [_, _, b2, b3] => b2 == 0 && b3 == 0
  | _ => false

/-- Go net.IP.Equal, on the byte-list model: equal after IPv4
normalization, or bytewise equal when neither side has an IPv4 form. -/
def ipEqual (a b : Addr) : Bool :=
  match to4 a, to4 b with
  | some a4, some b4 => a4 == b4
  | none, none => a == b
  | _, _ => false

/-- L4 protocol numbers (unix.IPPROTO_TCP and friends). -/
def ipprotoTCP : Nat := 6

def ipprotoUDP : Nat := 17

def ipprotoICMP : Nat := 1

def ipprotoICMPV6 : Nat := 58

/-- buffer.DataPool.MTU, the device MTU used by the oversize check. -/
def mtu : Nat := 1500

/-- The parsed header view exposed by the ip/tcp/udp header codecs
(pkg/tun/ip, not under src/): IP version, header length, payload length,
L4 protocol, addresses, IPv4 fragmentation fields, L4 ports and the two
TCP flags the dispatcher inspects. -/
structure Hdr where
  version : Nat
  headerLen : Nat
  payloadLen : Nat
  l4proto : Nat
  source : Addr
  destination : Addr
  moreFragments : Bool
  fragOffset : Nat
  fragID : Nat
  srcPort : Nat
  dstPort : Nat
  syn : Bool
  rst : Bool
deriving DecidableEq

/-- connpool.ConnID: the flow identifier tuple (protocol, source,
destination, source port, destination port) built by NewConnID. -/
structure ConnID where
  proto : Nat
  src : Addr
  dst : Addr
  srcPort : Nat
  dstPort : Nat
deriving DecidableEq

/-- The flow-ID of a packet, as built at dispatcher.go lines 240 and 266. -/
def connIDOf (proto : Nat) (h : Hdr) : ConnID :=
  ⟨proto, h.source, h.destination, h.srcPort, h.dstPort⟩

/-- Which concrete handler variant the factory produced (tcp.NewHandler,
udp.NewHandler, udp.NewDnsInterceptor). -/
inductive HKind where
  | hkTCP
  | hkUDP
  | hkDNS
deriving DecidableEq

/-- A live flow handler instance.  `hid` is a creation serial number so
distinct instances are distinguishable. -/
structure Handler where
  hid : Nat
  kind : HKind
deriving DecidableEq

/-- ICMP destination-unreachable sub-codes used by the dispatcher. -/
inductive ICMPCode where
  | mustFragment
  | hostUnreachable
  | portUnreachable
  | protocolUnreachable
deriving DecidableEq

/-- A packet queued on toTunCh for the device writer: either a
synthesized destination-unreachable reply (icmp.DestinationUnreachablePacket)
or a synthesized TCP reset (pkt.Reset()). -/
inductive OutPkt where
  | icmpUnreachable (code : ICMPCode) (origin : Hdr)
  | tcpReset (origin : Hdr)
deriving DecidableEq

/-- Modelled from the spec: the ICMP synthesizer (pkg/tun/icmp, not under
src/) addresses the destination-unreachable reply back to the original
sender, and a synthesized TCP reset likewise goes back to the source of
the packet that provoked it. -/
def OutPkt.dest : OutPkt → Addr
  | OutPkt.icmpUnreachable _ origin => origin.source
  | OutPkt.tcpReset origin => origin.source

/-- connpool.Pool's registry map, keyed by flow identifier. -/
abbrev Pool := List (ConnID × Handler)

def Pool.lookup : Pool → ConnID → Option Handler
  | [], _ => none
  | e :: es, id => if e.1 = id then some e.2 else Pool.lookup es id

def Pool.insert (p : Pool) (id : ConnID) (h : Handler) : Pool :=
  p ++ [(id, h)]

def Pool.remove (p : Pool) (id : ConnID) : Pool :=
  p.filter (fun e => decide (e.1 ≠ id))

/-- The fragment map of dispatcher.go: fragmentation ID to the buffered
fragments seen so far for that ID. -/
abbrev FragMap := List (Nat × List Hdr)

def fmLookup : FragMap → Nat → Option (List Hdr)
  | [], _ => none
  | e :: es, k => if e.1 = k then some e.2 else fmLookup es k

def fmSet : FragMap → Nat → List Hdr → FragMap
  | [], k, v => [(k, v)]
  | e :: es, k, v => if e.1 = k then (k, v) :: es else e :: fmSet es k v

def fmRemove (fm : FragMap) (k : Nat) : FragMap :=
  fm.filter (fun e => decide (e.1 ≠ k))

/-- Fuelled contiguity check over (offset, length, moreFragments)
triples: from position `pos`, find a fragment starting there; the range
is complete when a fragment without the more-fragments flag is reached. -/
def coversFrom : Nat → Nat → List (Nat × Nat × Bool) → Bool
  | 0, _, _ => false
  | fuel + 1, pos, frags =>
    match frags.find? (fun f => f.1 == pos) with
    | none => false
    | some f =>
      if f.2.2 = false then true
      else coversFrom fuel (pos + f.2.1) (frags.erase f)

/-- A buffered fragment set is complete when the fragments cover a
contiguous byte range from offset 0 up to a final fragment with the
more-fragments flag clear. -/
def fragComplete (frags : List Hdr) : Bool :=
  coversFrom (frags.length + 1) 0
    (frags.map (fun f => (f.fragOffset, f.payloadLen, f.moreFragments)))

/-- The header of the reassembled packet: offset 0, no more-fragments
flag, payload covering all buffered fragments. -/
def reassemble (h : Hdr) (frags : List Hdr) : Hdr :=
  { h with moreFragments := false, fragOffset := 0,
           payloadLen := (frags.map Hdr.payloadLen).sum }

/-- Modelled from the spec: ip.V4Header.ConcatFragments (pkg/tun/ip, not
under src/).  Buffer the fragment under its fragmentation ID; when the
set becomes a complete contiguous range return the reassembled packet
and remove the entry, otherwise return nothing and keep the grown set. -/
def concatFragments (h : Hdr) (fm : FragMap) : Option Hdr × FragMap :=
  let entry := (fmLookup fm h.fragID).getD []
  let entry2 := entry ++ [h]
  if fragComplete entry2 = true then
    (some (reassemble h entry2), fmRemove fm h.fragID)
  else
    (none, fmSet fm h.fragID entry2)

/-- blockedUDPPorts of dispatcher.go lines 92-96: the NetBIOS deny-list. -/
def blockedUDPPorts (port : Nat) : Bool :=
  port == 137 || port == 138 || port == 139

/-- The Dispatcher struct state: the handler registry, the creation
serial counter backing handler identity, the handlersWg counter of live
handler tasks, the toTunCh outbound queue contents, the fragment map,
the tri-state closing flag (0 running, 1 closing, 2 closed), whether the
device was closed, whether CloseAll has been signalled, the lazily
established manager client, and the DNS redirect configuration. -/
structure DState where
  handlers : Pool
  nextHid : Nat
  handlersWg : Nat
  toTunCh : List OutPkt
  fragmentMap : FragMap
  closing : Nat
  devClosed : Bool
  closeSignaled : Bool
  managerClient : Option Nat
  dnsIP : Addr
  dnsPort : Nat
deriving DecidableEq

/-- Send on d.toTunCh. -/
def enqueueTun (s : DState) (pkt : OutPkt) : DState :=
  { s with toTunCh := s.toTunCh ++ [pkt] }

/-- Observable effects of the per-packet path: log statements, buffer
pool events on buffer ids (the buffer read from the device is id 0, a
buffer produced by reassembly is id 1), handler creation, and the
hand-off of a packet or datagram to its handler.  Writer effects record
the device write attempt and the SoftRelease of the written packet. -/
inductive Effect where
  | logParseError
  | logTunDebugTCP
  | logTunDebugUDP
  | logICMPDebug
  | logRSTError
  | bufPut (bid : Nat)
  | bufTransferTCP (bid : Nat)
  | bufTransferUDP (bid : Nat)
  | bufStoreFrag (bid : Nat)
  | bufAcquired (bid : Nat)
  | newHandler (h : Handler) (id : ConnID)
  | tcpHandlePacket (h : Handler) (hdr : Hdr)
  | udpNewDatagram (h : Handler) (hdr : Hdr)
  | devWrite (pkt : OutPkt) (err : Bool)
  | softReleasePkt (pkt : OutPkt)
deriving DecidableEq

/-- Dispatcher.tcp (dispatcher.go lines 236-260).  Build the flow ID and
perform the pool's get-or-create (connpool.Pool.Get is not under src/;
its get-or-create contract from the spec is inlined here): an existing
handler gets the packet; otherwise the factory closure runs: RST is an
error (logged by the caller, nothing created), a non-SYN packet first
queues pkt.Reset() on toTunCh, then handlersWg is incremented and a new
tcp handler is created, registered and handed the packet.  The packet
buffer `bid` was transferred to the tcp packet by PacketFromData. -/
def dispatchTCP (s : DState) (bid : Nat) (h : Hdr) : DState × List Effect :=
  match Pool.lookup s.handlers (connIDOf ipprotoTCP h) with
  | some wf =>
      (s, [Effect.logTunDebugTCP, Effect.bufTransferTCP bid,
           Effect.tcpHandlePacket wf h])
  | none =>
      if h.rst = true then
        (s, [Effect.logTunDebugTCP, Effect.bufTransferTCP bid,
             Effect.logRSTError])
      else
        let s1 := if h.syn = true then s else enqueueTun s (OutPkt.tcpReset h)
        let hd : Handler := ⟨s1.nextHid, HKind.hkTCP⟩
        let s2 := { s1 with
          handlersWg := s1.handlersWg + 1,
          nextHid := s1.nextHid + 1,
          handlers := Pool.insert s1.handlers (connIDOf ipprotoTCP h) hd }
        (s2, [Effect.logTunDebugTCP, Effect.bufTransferTCP bid,
              Effect.newHandler hd (connIDOf ipprotoTCP h),
              Effect.tcpHandlePacket hd h])

/-- Dispatcher.udp (dispatcher.go lines 262-279).  Build the flow ID and
get-or-create: an existing handler receives the datagram; otherwise
handlersWg is incremented and the factory picks the DNS-interceptor
variant when the destination port and address match the configured DNS
redirect target, else the generic udp handler; the new handler is
registered and receives the datagram. -/
def dispatchUDP (s : DState) (bid : Nat) (h : Hdr) : DState × List Effect :=
  match Pool.lookup s.handlers (connIDOf ipprotoUDP h) with
  | some uh =>
      (s, [Effect.logTunDebugUDP, Effect.bufTransferUDP bid,
           Effect.udpNewDatagram uh h])
  | none =>
      let kind :=
        if h.dstPort = s.dnsPort ∧ ipEqual h.destination s.dnsIP = true then
          HKind.hkDNS
        else HKind.hkUDP
      let hd : Handler := ⟨s.nextHid, kind⟩
      let s2 := { s with
        handlersWg := s.handlersWg + 1,
        nextHid := s.nextHid + 1,
        handlers := Pool.insert s.handlers (connIDOf ipprotoUDP h) hd }
      (s2, [Effect.logTunDebugUDP, Effect.bufTransferUDP bid,
            Effect.newHandler hd (connIDOf ipprotoUDP h),
            Effect.udpNewDatagram hd h])

/-- The protocol switch of Dispatcher.handlePacket (dispatcher.go lines
203-233), run on the buffer `bid` currently owned by the function.  TCP
transfers the buffer to the tcp path; UDP first drops link-local
destinations silently, then answers subnet-zero destinations with a
host-unreachable ICMP, then answers deny-listed ports with a
port-unreachable ICMP (releasing the buffer on each of those paths), and
otherwise transfers the buffer to the udp path; ICMPv4 falls through an
empty case (buffer released), ICMPv6 is logged (buffer released), and
any other protocol gets a protocol-unreachable ICMP (buffer released). -/
def classify (s : DState) (bid : Nat) (ipHdr : Hdr) : DState × List Effect :=
  if ipHdr.l4proto = ipprotoTCP then
    dispatchTCP s bid ipHdr
  else if ipHdr.l4proto = ipprotoUDP then
    if isLinkLocalUnicast ipHdr.destination = true
        ∨ isLinkLocalMulticast ipHdr.destination = true then
      (s, [Effect.bufPut bid])
    else if subnetZero ipHdr.destination = true then
      (enqueueTun s (OutPkt.icmpUnreachable ICMPCode.hostUnreachable ipHdr),
       [Effect.bufPut bid])
    else if blockedUDPPorts ipHdr.srcPort = true
        ∨ blockedUDPPorts ipHdr.dstPort = true then
      (enqueueTun s (OutPkt.icmpUnreachable ICMPCode.portUnreachable ipHdr),
       [Effect.bufPut bid])
    else
      dispatchUDP s bid ipHdr
  else if ipHdr.l4proto = ipprotoICMP then
    (s, [Effect.bufPut bid])
  else if ipHdr.l4proto = ipprotoICMPV6 then
    (s, [Effect.logICMPDebug, Effect.bufPut bid])
  else
    (enqueueTun s (OutPkt.icmpUnreachable ICMPCode.protocolUnreachable ipHdr),
     [Effect.bufPut bid])

/-- Dispatcher.handlePacket (dispatcher.go lines 173-234) on the parse
result of the buffer read from the device (buffer id 0).  A parse
failure is logged and the deferred Put releases the buffer.  An
oversized packet (payload length exceeding MTU minus header length, in
Go int arithmetic) queues one must-fragment destination-unreachable
reply and the deferred Put releases the buffer.  An IPv4 packet with the
more-fragments flag or a nonzero fragment offset goes to the
reassembler, which consumes the buffer; if reassembly completes, a
reassembled buffer (id 1) continues into the protocol switch, which the
source runs on the original parsed header.  Everything else goes to the
protocol switch with buffer id 0. -/
def handlePacket (s : DState) (parsed : Option Hdr) : DState × List Effect :=
  match parsed with
  | none => (s, [Effect.logParseError, Effect.bufPut 0])
  | some ipHdr =>
    if (mtu : Int) - (ipHdr.headerLen : Int) < (ipHdr.payloadLen : Int) then
      (enqueueTun s (OutPkt.icmpUnreachable ICMPCode.mustFragment ipHdr),
       [Effect.bufPut 0])
    else if ipHdr.version = 4
        ∧ (ipHdr.moreFragments = true ∨ ipHdr.fragOffset ≠ 0) then
      match concatFragments ipHdr s.fragmentMap with
      | (none, fm) => ({ s with fragmentMap := fm }, [Effect.bufStoreFrag 0])
      | (some _, fm) =>
        let r := classify { s with fragmentMap := fm } 1 ipHdr
        (r.1, Effect.bufStoreFrag 0 :: Effect.bufAcquired 1 :: r.2)
    else
      classify s 0 ipHdr

/-- One cycle of the TUN writer of Dispatcher.Run (dispatcher.go lines
102-120) that has received a packet from toTunCh: write it to the device
(the attempt may fail, `err`), then SoftRelease the packet's buffer
regardless of the write outcome. -/
def writerStep (s : DState) (err : Bool) : DState × List Effect :=
  match s.toTunCh with
  | [] => (s, [])
  | pkt :: rest =>
      ({ s with toTunCh := rest },
       [Effect.devWrite pkt err, Effect.softReleasePkt pkt])

/-- Dispatcher.SetManagerInfo (dispatcher.go lines 64-82).  The outcome
of grpc.DialContext is an input (`dial`); the result records the call's
return value, the new state and how many dials were performed.  When a
manager client already exists nothing is dialled and nil is returned;
otherwise one dial happens, a failure is returned with the client still
unset, and a success installs the manager client. -/
def SetManagerInfo (s : DState) (dial : Except Unit Nat) :
    Except Unit Unit × DState × Nat :=
  match s.managerClient with
  | some _ => (Except.ok (), s, 0)
  | none =>
    match dial with
    | Except.error e => (Except.error e, s, 1)
    | Except.ok conn =>
        (Except.ok (), { s with managerClient := some conn }, 1)

/-- Modelled from the spec: connpool.Pool.Get (pkg/connpool, not under
src/): get-or-create with single-flight semantics — an existing entry is
returned as is; otherwise the factory runs exactly once and its result
is stored under the flow ID.  The registry serializes concurrent Get
calls, so a sequence of atomic Get calls is the concurrency model.  The
last component counts factory invocations performed by the call. -/
def Pool.get (p : Pool) (id : ConnID) (factory : Unit → Except Unit Handler) :
    Except Unit Handler × Pool × Nat :=
  match Pool.lookup p id with
  | some h => (Except.ok h, p, 0)
  | none =>
    match factory () with
    | Except.error e => (Except.error e, p, 1)
    | Except.ok h => (Except.ok h, Pool.insert p id h, 1)

/-- A batch of callers racing on the same flow ID, serialized by the
registry lock: each runs Pool.get with its own factory; results, the
final registry and the total factory-invocation count are collected. -/
def concurrentGet (p : Pool) (id : ConnID) :
    List (Unit → Except Unit Handler) →
    List (Except Unit Handler) × Pool × Nat
  | [] => ([], p, 0)
  | f :: fs =>
    let r := Pool.get p id f
    let rest := concurrentGet r.2.1 id fs
    (r.1 :: rest.1, rest.2.1, r.2.2 + rest.2.2)

/-- Program counter positions of a Stop call (dispatcher.go lines
84-90): 0 not yet invoked, 1 after the flag was set to closing, 2 after
CloseAll was signalled, 3 after the handlersWg wait was passed, 4 after
the flag was set to closed, 5 after the device was closed (Stop
returned). -/
structure Sys where
  d : DState
  stopPC : Nat
  readerPC : Nat
  input : List (Option Hdr)
  pending : Option (Option Hdr)
deriving DecidableEq

/-- Scheduler labels for the interleaving of the Stop call, the TUN
reader pipeline and the independent flow-handler tasks. -/
inductive Label where
  | stopSetClosing
  | stopCloseAll
  | stopWait
  | stopSetClosed
  | stopCloseDev
  | readerRead
  | readerExit
  | readerDispatch
  | handlerFinish (id : ConnID)
deriving DecidableEq

/-- One atomic statement of one task.  Stop's statements follow its
source order and its wait is enabled only when no handler task is live;
the reader's read is enabled only while the flag is below closed (the
loop guard at dispatcher.go line 150), after which it dispatches the
packet it read via handlePacket; a handler task may finish at any time,
invoking its removal callback and decrementing handlersWg.  `none`
means the statement is not enabled in this state. -/
def stepF (y : Sys) : Label → Option Sys
  | Label.stopSetClosing =>
    if y.stopPC = 0 then
      some { y with d := { y.d with closing := 1 }, stopPC := 1 }
    else none
  | Label.stopCloseAll =>
    if y.stopPC = 1 then
      some { y with d := { y.d with closeSignaled := true }, stopPC := 2 }
    else none
  | Label.stopWait =>
    if y.stopPC = 2 ∧ y.d.handlersWg = 0 then
      some { y with stopPC := 3 }
    else none
  | Label.stopSetClosed =>
    if y.stopPC = 3 then
      some { y with d := { y.d with closing := 2 }, stopPC := 4 }
    else none
  | Label.stopCloseDev =>
    if y.stopPC = 4 then
      some { y with d := { y.d with devClosed := true }, stopPC := 5 }
    else none
  | Label.readerRead =>
    match y.input with
    | [] => none
    | p :: rest =>
      if y.readerPC = 0 ∧ y.d.closing < 2 then
        some { y with input := rest, pending := some p, readerPC := 1 }
      else none
  | Label.readerExit =>
    if y.readerPC = 0 ∧ 2 ≤ y.d.closing then
      some { y with readerPC := 2 }
    else none
  | Label.readerDispatch =>
    match y.pending with
    | none => none
    | some p =>
      if y.readerPC = 1 then
        some { y with d := (handlePacket y.d p).1, pending := none,
                      readerPC := 0 }
      else none
  | Label.handlerFinish id =>
    match Pool.lookup y.d.handlers id with
    | none => none
    | some _ =>
      if 0 < y.d.handlersWg then
        some { y with d := { y.d with
          handlers := Pool.remove y.d.handlers id,
          handlersWg := y.d.handlersWg - 1 } }
      else none

/-- Run a schedule of labels; fails when a label is not enabled. -/
def run (y : Sys) : List Label → Option Sys
  | [] => some y
  | l :: ls =>
    match stepF y l with
    | none => none
    | some y1 => run y1 ls

/-- Does this effect dispose of buffer `bid` (Put back to the pool,
ownership transfer to the tcp or udp path, or consumption by the
fragment reassembler)? -/
def isDisposal (bid : Nat) : Effect → Bool
  | Effect.bufPut i => i == bid
  | Effect.bufTransferTCP i => i == bid
  | Effect.bufTransferUDP i => i == bid
  | Effect.bufStoreFrag i => i == bid
  | _ => false

/-- How many times an effect list disposes of buffer `bid`. -/
def disposals (effs : List Effect) (bid : Nat) : Nat :=
  effs.countP (isDisposal bid)

/-- A freshly constructed dispatcher state (NewDispatcher with empty
registry, empty queue, empty fragment map, flag running). -/
def d0 : DState :=
  { handlers := [], nextHid := 0, handlersWg := 0, toTunCh := [],
    fragmentMap := [], closing := 0, devClosed := false,
    closeSignaled := false, managerClient := none, dnsIP := [], dnsPort := 0 }

/-- A well-formed TCP SYN packet for a fresh flow. -/
def hdrSynC1 : Hdr :=
  { version := 4, headerLen := 20, payloadLen := 100, l4proto := 6,
    source := [10, 0, 0, 1], destination := [10, 0, 0, 2],
    moreFragments := false, fragOffset := 0, fragID := 0,
    srcPort := 1000, dstPort := 80, syn := true, rst := false }

/-- The flow ID of a pre-existing handler that is still live when Stop
is invoked. -/
def cidOldC1 : ConnID := ⟨6, [10, 0, 0, 9], [10, 0, 0, 8], 5, 6⟩

/-- Dispatcher state with one live handler registered. -/
def dInitC1 : DState :=
  { d0 with handlers := [(cidOldC1, ⟨0, HKind.hkTCP⟩)],
            nextHid := 1, handlersWg := 1 }

/-- Initial system: one live handler, one SYN packet available on the
device, Stop not yet invoked. -/
def sysInitC1 : Sys :=
  { d := dInitC1, stopPC := 0, readerPC := 0,
    input := [some hdrSynC1], pending := none }

/-- Schedule: Stop runs its first two statements (flag to closing,
CloseAll) and then blocks in the handlersWg wait, since the old handler
task has not finished; meanwhile the reader passes its loop guard
(closing = 1 < 2), reads the SYN packet and dispatches it. -/
def traceC1 : List Label :=
  [Label.stopSetClosing, Label.stopCloseAll,
   Label.readerRead, Label.readerDispatch]

/-- A system stopped at the handlersWg wait with no live handler, used
to exercise the wait-enabledness fact. -/
def sysWaitC1 : Sys :=
  { d := d0, stopPC := 2, readerPC := 0, input := [], pending := none }

/-- The state after the wait passes. -/
def sysWaitC1x : Sys := { sysWaitC1 with stopPC := 3 }

/-- A running system about to read a packet. -/
def sysReadC1 : Sys :=
  { d := d0, stopPC := 0, readerPC := 0, input := [none], pending := none }

/-- The state after that read. -/
def sysReadC1x : Sys :=
  { sysReadC1 with input := [], pending := some none, readerPC := 1 }

/-- A factory for the single-flight witness. -/
def facW : Unit → Except Unit Handler := fun _ => Except.ok ⟨0, HKind.hkTCP⟩

/-- A flow ID for the single-flight witness. -/
def cidW : ConnID := ⟨17, [10, 0, 0, 1], [10, 0, 0, 2], 5353, 53⟩

/-- An oversized packet: payload 3000 exceeds MTU 1500 minus header 20. -/
def hdrC3w : Hdr :=
  { version := 4, headerLen := 20, payloadLen := 3000, l4proto := 6,
    source := [10, 0, 0, 1], destination := [10, 0, 0, 2],
    moreFragments := false, fragOffset := 0, fragID := 0,
    srcPort := 1000, dstPort := 80, syn := true, rst := false }

/-- A UDP datagram with deny-listed source port 137 whose destination
169.254.1.1 is link-local. -/
def hdrC4cx : Hdr :=
  { version := 4, headerLen := 20, payloadLen := 100, l4proto := 17,
    source := [10, 0, 0, 1], destination := [169, 254, 1, 1],
    moreFragments := false, fragOffset := 0, fragID := 0,
    srcPort := 137, dstPort := 53, syn := false, rst := false }

/-- A UDP datagram with deny-listed source port 137 and an ordinary
destination. -/
def hdrC4w : Hdr :=
  { hdrC4cx with destination := [10, 0, 0, 2] }

/-- A TCP RST packet for a flow with no handler. -/
def hdrC5w : Hdr :=
  { hdrSynC1 with syn := false, rst := true }

/-- A TCP packet with neither SYN nor RST for a flow with no handler. -/
def hdrC6w : Hdr :=
  { hdrSynC1 with syn := false, rst := false }

/-- An oversized UDP datagram whose destination is link-local. -/
def hdrC7cx : Hdr :=
  { hdrC4cx with payloadLen := 5000, srcPort := 1000 }

/-- A normal-sized UDP datagram to a link-local destination. -/
def hdrC7w : Hdr :=
  { hdrC4cx with srcPort := 1000 }

/-- A normal-sized UDP datagram to the subnet-zero address 10.1.0.0. -/
def hdrC7z : Hdr :=
  { hdrC4cx with destination := [10, 1, 0, 0], srcPort := 1000 }

/-- A normal-sized ICMPv4 packet. -/
def hdrC8cx : Hdr :=
  { hdrC4cx with l4proto := 1, srcPort := 1000 }

/-- A normal-sized ICMPv6 packet. -/
def hdrC8w6 : Hdr :=
  { hdrC4cx with l4proto := 58, srcPort := 1000 }

/-- A packet of unhandled L4 protocol 99. -/
def hdrC8wo : Hdr :=
  { hdrC4cx with l4proto := 99, srcPort := 1000 }

/-- A dispatcher state with one packet queued for the device writer. -/
def dW9 : DState :=
  { d0 with toTunCh := [OutPkt.tcpReset hdrC6w] }

/-- A dispatcher state whose manager client is already established. -/
def dC10 : DState := { d0 with managerClient := some 7 }

/-- An entry appended behind a key that is absent from the registry is
found by lookup. -/
theorem pool_lookup_insert (p : Pool) (id : ConnID) (h : Handler)
    (hm : Pool.lookup p id = none) :
    Pool.lookup (Pool.insert p id h) id = some h := by
  induction p with
  | nil => simp [Pool.insert, Pool.lookup]
  | cons e es ih =>
    simp only [Pool.lookup] at hm
    by_cases he : e.1 = id
    · rw [if_pos he] at hm
      exact absurd hm (by simp)
    · rw [if_neg he] at hm
      simp only [Pool.insert, List.cons_append, Pool.lookup]
      rw [if_neg he]
      exact ih hm

/-- When the registry already holds `h` under `id`, a Get call returns
it without invoking the factory. -/
theorem pool_get_hit (p : Pool) (id : ConnID)
    (f : Unit → Except Unit Handler) (h : Handler)
    (hp : Pool.lookup p id = some h) :
    Pool.get p id f = (Except.ok h, p, 0) := by
  unfold Pool.get
  rw [hp]

/-- When the registry already holds `h` under `id`, a whole batch of
serialized Get calls returns `h` to everyone and never invokes any
factory. -/
theorem concurrentGet_hit (id : ConnID) (h : Handler)
    (fs : List (Unit → Except Unit Handler)) :
    ∀ p : Pool, Pool.lookup p id = some h →
      concurrentGet p id fs = (fs.map (fun _ => Except.ok h), p, 0) := by
  induction fs with
  | nil => intro p hp; rfl
  | cons f fs ih =>
    intro p hp
    unfold concurrentGet
    rw [pool_get_hit p id f h hp]
    simp [ih p hp]

/-- C2: concurrent get-or-create calls on the connection registry for a
flow identifier with no existing entry, serialized by the registry lock,
invoke the factory exactly once (the first caller's), and every caller
receives the same handler instance. -/
theorem C2_single_flight (p : Pool) (id : ConnID)
    (f : Unit → Except Unit Handler) (fs : List (Unit → Except Unit Handler))
    (h : Handler) (hm : Pool.lookup p id = none) (hf : f () = Except.ok h) :
    (concurrentGet p id (f :: fs)).2.2 = 1 ∧
      ∀ r ∈ (concurrentGet p id (f :: fs)).1, r = Except.ok h := by
  have hget : Pool.get p id f = (Except.ok h, Pool.insert p id h, 1) := by
    unfold Pool.get
    rw [hm, hf]
  have hins := pool_lookup_insert p id h hm
  have hrest := concurrentGet_hit id h fs (Pool.insert p id h) hins
  have hall : concurrentGet p id (f :: fs) =
      (Except.ok h :: fs.map (fun _ => Except.ok h),
       Pool.insert p id h, 1) := by
    simp only [concurrentGet, hget, hrest]
  rw [hall]
  constructor
  · rfl
  · intro r hr
    simp only [List.mem_cons, List.mem_map] at hr
    rcases hr with hr | ⟨_, _, hr⟩
    · exact hr
    · exact hr.symm

/-- C2 witness: two callers race on an unseen flow ID with factory
`facW`; one factory invocation happens and both receive the instance it
produced. -/
theorem C2_single_flight_witness :
    (concurrentGet [] cidW (facW :: [facW])).2.2 = 1 ∧
      ∀ r ∈ (concurrentGet [] cidW (facW :: [facW])).1,
        r = Except.ok ⟨0, HKind.hkTCP⟩ :=
  C2_single_flight [] cidW facW [facW] ⟨0, HKind.hkTCP⟩ rfl rfl

/-- C3: a packet whose parsed payload length exceeds the device MTU
minus the parsed header length makes handlePacket queue exactly one
must-fragment destination-unreachable ICMP reply, addressed to the
packet's source, onto the outbound device queue, with no other state
change: the fragment map is untouched (no reassembly), the registry and
the live-handler count are untouched (no classification, no handler
creation), and the packet's buffer is released. -/
theorem C3_oversize_icmp (s : DState) (h : Hdr)
    (hov : (mtu : Int) - (h.headerLen : Int) < (h.payloadLen : Int)) :
    handlePacket s (some h) =
      ({ s with toTunCh :=
          s.toTunCh ++ [OutPkt.icmpUnreachable ICMPCode.mustFragment h] },
       [Effect.bufPut 0]) ∧
    (OutPkt.icmpUnreachable ICMPCode.mustFragment h).dest = h.source := by
  constructor
  · simp only [handlePacket]
    rw [if_pos hov]
    rfl
  · rfl

/-- C3 witness: a packet with payload 3000 and header 20 against MTU
1500 triggers the must-fragment reply. -/
theorem C3_oversize_icmp_witness :
    (handlePacket d0 (some hdrC3w) =
      ({ d0 with toTunCh :=
          d0.toTunCh ++ [OutPkt.icmpUnreachable ICMPCode.mustFragment hdrC3w] },
       [Effect.bufPut 0]) ∧
    (OutPkt.icmpUnreachable ICMPCode.mustFragment hdrC3w).dest
      = hdrC3w.source) :=
  C3_oversize_icmp d0 hdrC3w (by decide)

/-- C10: SetManagerInfo dials only when no manager client is
established: with a client already present it performs no dial, leaves
the state unchanged and returns nil; with no client it performs exactly
one dial, and a successful dial installs the manager client. -/
theorem C10_setManagerInfo_idempotent :
    (∀ (s : DState) (dial : Except Unit Nat) (c : Nat),
        s.managerClient = some c →
        SetManagerInfo s dial = (Except.ok (), s, 0)) ∧
    (∀ (s : DState) (dial : Except Unit Nat),
        s.managerClient = none → (SetManagerInfo s dial).2.2 = 1) ∧
    (∀ (s : DState) (conn : Nat),
        s.managerClient = none →
        SetManagerInfo s (Except.ok conn) =
          (Except.ok (), { s with managerClient := some conn }, 1)) := by
  refine ⟨?_, ?_, ?_⟩
  · intro s dial c hc
    unfold SetManagerInfo
    rw [hc]
  · intro s dial hn
    unfold SetManagerInfo
    rw [hn]
    cases dial <;> rfl
  · intro s conn hn
    unfold SetManagerInfo
    rw [hn]

/-- C10 witness: a state with an established client is returned
untouched with no dial; the fresh state dials once and installs the
client. -/
theorem C10_setManagerInfo_idempotent_witness :
    SetManagerInfo dC10 (Except.ok 9) = (Except.ok (), dC10, 0) ∧
    SetManagerInfo d0 (Except.ok 9) =
      (Except.ok (), { d0 with managerClient := some 9 }, 1) :=
  ⟨C10_setManagerInfo_idempotent.1 dC10 (Except.ok 9) 7 rfl,
   C10_setManagerInfo_idempotent.2.2 d0 9 rfl⟩

/-- C4 counterexample: the UDP datagram hdrC4cx has deny-listed source
port 137, yet because its destination 169.254.1.1 is link-local the
dispatcher drops it silently before reaching the blocked-port check:
the state is returned unchanged (in particular the outbound queue stays
empty, so no port-unreachable ICMP is queued). -/
theorem C4_counterexample :
    handlePacket d0 (some hdrC4cx) = (d0, [Effect.bufPut 0]) := by decide

/-- C4 amended: a UDP datagram that reaches the blocked-port check —
parseable, not oversized, not an IPv4 fragment, destination neither
link-local nor subnet-zero — with source or destination port on the
deny-list gets exactly one port-unreachable destination-unreachable
ICMP reply queued, its buffer is released, and no flow handler is
created (registry, live-handler count and fragment map unchanged). -/
theorem C4_amended_blocked_ports (s : DState) (h : Hdr)
    (hp : h.l4proto = ipprotoUDP)
    (hsz : ¬ ((mtu : Int) - (h.headerLen : Int) < (h.payloadLen : Int)))
    (hfr : ¬ (h.version = 4 ∧ (h.moreFragments = true ∨ h.fragOffset ≠ 0)))
    (hll : ¬ (isLinkLocalUnicast h.destination = true
        ∨ isLinkLocalMulticast h.destination = true))
    (hzz : ¬ subnetZero h.destination = true)
    (hblk : blockedUDPPorts h.srcPort = true
        ∨ blockedUDPPorts h.dstPort = true) :
    handlePacket s (some h) =
      ({ s with toTunCh :=
          s.toTunCh ++ [OutPkt.icmpUnreachable ICMPCode.portUnreachable h] },
       [Effect.bufPut 0]) := by
  simp only [handlePacket]
  rw [if_neg hsz, if_neg hfr]
  simp [classify, hp, hll, hzz, hblk, enqueueTun,
        ipprotoTCP, ipprotoUDP, ipprotoICMP, ipprotoICMPV6]

/-- C4 witness: a datagram with source port 137 and ordinary destination
10.0.0.2 gets the port-unreachable reply. -/
theorem C4_amended_blocked_ports_witness :
    handlePacket d0 (some hdrC4w) =
      ({ d0 with toTunCh :=
          d0.toTunCh ++ [OutPkt.icmpUnreachable ICMPCode.portUnreachable hdrC4w] },
       [Effect.bufPut 0]) :=
  C4_amended_blocked_ports d0 hdrC4w (by decide) (by decide) (by decide)
    (by decide) (by decide) (by decide)

/-- C5: a TCP packet with RST set that reaches TCP dispatch (parseable,
not oversized, not a fragment) for a flow identifier with no registered
handler creates no handler and changes no dispatcher state; the
condition is logged as an error (the factory's error is caught and
logged by Dispatcher.tcp) and the packet is dropped — handlePacket
returns normally, so nothing propagates beyond the per-packet path. -/
theorem C5_rst_unknown_flow (s : DState) (h : Hdr)
    (hp : h.l4proto = ipprotoTCP)
    (hsz : ¬ ((mtu : Int) - (h.headerLen : Int) < (h.payloadLen : Int)))
    (hfr : ¬ (h.version = 4 ∧ (h.moreFragments = true ∨ h.fragOffset ≠ 0)))
    (hmiss : Pool.lookup s.handlers (connIDOf ipprotoTCP h) = none)
    (hrst : h.rst = true) :
    handlePacket s (some h) =
      (s, [Effect.logTunDebugTCP, Effect.bufTransferTCP 0,
           Effect.logRSTError]) := by
  have hm6 : Pool.lookup s.handlers (connIDOf 6 h) = none := hmiss
  simp only [handlePacket]
  rw [if_neg hsz, if_neg hfr]
  simp [classify, hp, dispatchTCP, hm6, hrst,
        ipprotoTCP, ipprotoUDP, ipprotoICMP, ipprotoICMPV6]

/-- C5 witness: an RST packet for an unregistered flow in the fresh
dispatcher state. -/
theorem C5_rst_unknown_flow_witness :
    handlePacket d0 (some hdrC5w) =
      (d0, [Effect.logTunDebugTCP, Effect.bufTransferTCP 0,
            Effect.logRSTError]) :=
  C5_rst_unknown_flow d0 hdrC5w (by decide) (by decide) (by decide)
    (by decide) (by decide)

/-- C6: a TCP packet with neither SYN nor RST that reaches TCP dispatch
for a flow identifier with no registered handler causes a synthesized
RST reply (pkt.Reset()) to be queued onto the outbound device queue. -/
theorem C6_nonsyn_rst_reply (s : DState) (h : Hdr)
    (hp : h.l4proto = ipprotoTCP)
    (hsz : ¬ ((mtu : Int) - (h.headerLen : Int) < (h.payloadLen : Int)))
    (hfr : ¬ (h.version = 4 ∧ (h.moreFragments = true ∨ h.fragOffset ≠ 0)))
    (hmiss : Pool.lookup s.handlers (connIDOf ipprotoTCP h) = none)
    (hrst : h.rst = false) (hsyn : h.syn = false) :
    (handlePacket s (some h)).1.toTunCh = s.toTunCh ++ [OutPkt.tcpReset h] := by
  have hm6 : Pool.lookup s.handlers (connIDOf 6 h) = none := hmiss
  simp only [handlePacket]
  rw [if_neg hsz, if_neg hfr]
  simp [classify, hp, dispatchTCP, hm6, hrst, hsyn, enqueueTun,
        ipprotoTCP, ipprotoUDP, ipprotoICMP, ipprotoICMPV6]

/-- C6 witness: a plain ACK-style packet for an unknown flow queues a
reset. -/
theorem C6_nonsyn_rst_reply_witness :
    (handlePacket d0 (some hdrC6w)).1.toTunCh =
      d0.toTunCh ++ [OutPkt.tcpReset hdrC6w] :=
  C6_nonsyn_rst_reply d0 hdrC6w (by decide) (by decide) (by decide)
    (by decide) (by decide) (by decide)

/-- C7 counterexample: the UDP datagram hdrC7cx has a link-local
destination, yet the dispatcher does not drop it silently: it is
oversized, so the oversize check fires first and a must-fragment ICMP
reply is queued — an ICMP is emitted for a link-local-destination UDP
datagram. -/
theorem C7_counterexample :
    handlePacket d0 (some hdrC7cx) =
      ({ d0 with toTunCh :=
          [OutPkt.icmpUnreachable ICMPCode.mustFragment hdrC7cx] },
       [Effect.bufPut 0]) := by decide

/-- C7 amended: for a UDP datagram that reaches UDP classification
(parseable, not oversized, not an IPv4 fragment): a link-local
destination is dropped silently — no ICMP, no handler, state unchanged,
buffer released; a destination that is not link-local but matches the
IPv4 subnet-zero pattern gets exactly one host-unreachable
destination-unreachable ICMP reply and no handler is created. -/
theorem C7_linklocal_subnetzero :
    (∀ (s : DState) (h : Hdr),
      h.l4proto = ipprotoUDP →
      ¬ ((mtu : Int) - (h.headerLen : Int) < (h.payloadLen : Int)) →
      ¬ (h.version = 4 ∧ (h.moreFragments = true ∨ h.fragOffset ≠ 0)) →
      (isLinkLocalUnicast h.destination = true
        ∨ isLinkLocalMulticast h.destination = true) →
      handlePacket s (some h) = (s, [Effect.bufPut 0])) ∧
    (∀ (s : DState) (h : Hdr),
      h.l4proto = ipprotoUDP →
      ¬ ((mtu : Int) - (h.headerLen : Int) < (h.payloadLen : Int)) →
      ¬ (h.version = 4 ∧ (h.moreFragments = true ∨ h.fragOffset ≠ 0)) →
      ¬ (isLinkLocalUnicast h.destination = true
        ∨ isLinkLocalMulticast h.destination = true) →
      subnetZero h.destination = true →
      handlePacket s (some h) =
        ({ s with toTunCh :=
            s.toTunCh ++ [OutPkt.icmpUnreachable ICMPCode.hostUnreachable h] },
         [Effect.bufPut 0])) := by
  constructor
  · intro s h hp hsz hfr hll
    simp only [handlePacket]
    rw [if_neg hsz, if_neg hfr]
    simp [classify, hp, hll,
          ipprotoTCP, ipprotoUDP, ipprotoICMP, ipprotoICMPV6]
  · intro s h hp hsz hfr hll hzz
    simp only [handlePacket]
    rw [if_neg hsz, if_neg hfr]
    simp [classify, hp, hll, hzz, enqueueTun,
          ipprotoTCP, ipprotoUDP, ipprotoICMP, ipprotoICMPV6]

/-- C7 witness: a normal-sized datagram to link-local 169.254.1.1 is
silently dropped; one to subnet-zero 10.1.0.0 gets the host-unreachable
reply. -/
theorem C7_linklocal_subnetzero_witness :
    handlePacket d0 (some hdrC7w) = (d0, [Effect.bufPut 0]) ∧
    handlePacket d0 (some hdrC7z) =
      ({ d0 with toTunCh :=
          d0.toTunCh ++ [OutPkt.icmpUnreachable ICMPCode.hostUnreachable hdrC7z] },
       [Effect.bufPut 0]) :=
  ⟨C7_linklocal_subnetzero.1 d0 hdrC7w (by decide) (by decide) (by decide)
      (by decide),
   C7_linklocal_subnetzero.2 d0 hdrC7z (by decide) (by decide) (by decide)
      (by decide) (by decide)⟩

/-- C8 counterexample: the well-formed ICMPv4 packet hdrC8cx is dropped
without any log effect — the IPPROTO_ICMP case of the protocol switch is
empty, so nothing is logged (only the deferred buffer release runs),
refuting the claim that every ICMP/ICMPv6 packet is logged. -/
theorem C8_counterexample :
    handlePacket d0 (some hdrC8cx) = (d0, [Effect.bufPut 0]) := by decide

/-- C8 amended: for a packet that reaches protocol classification
(parseable, not oversized, not an IPv4 fragment): ICMPv4 is dropped
silently — not logged, not forwarded, no handler; ICMPv6 is logged and
dropped — not forwarded, no handler; a protocol that is none of
TCP/UDP/ICMP/ICMPv6 gets exactly one protocol-unreachable
destination-unreachable ICMP reply queued, with no handler created. -/
theorem C8_icmp_and_unknown_protocol :
    (∀ (s : DState) (h : Hdr),
      ¬ ((mtu : Int) - (h.headerLen : Int) < (h.payloadLen : Int)) →
      ¬ (h.version = 4 ∧ (h.moreFragments = true ∨ h.fragOffset ≠ 0)) →
      h.l4proto = ipprotoICMP →
      handlePacket s (some h) = (s, [Effect.bufPut 0])) ∧
    (∀ (s : DState) (h : Hdr),
      ¬ ((mtu : Int) - (h.headerLen : Int) < (h.payloadLen : Int)) →
      ¬ (h.version = 4 ∧ (h.moreFragments = true ∨ h.fragOffset ≠ 0)) →
      h.l4proto = ipprotoICMPV6 →
      handlePacket s (some h) = (s, [Effect.logICMPDebug, Effect.bufPut 0])) ∧
    (∀ (s : DState) (h : Hdr),
      ¬ ((mtu : Int) - (h.headerLen : Int) < (h.payloadLen : Int)) →
      ¬ (h.version = 4 ∧ (h.moreFragments = true ∨ h.fragOffset ≠ 0)) →
      h.l4proto ≠ ipprotoTCP → h.l4proto ≠ ipprotoUDP →
      h.l4proto ≠ ipprotoICMP → h.l4proto ≠ ipprotoICMPV6 →
      handlePacket s (some h) =
        ({ s with toTunCh :=
            s.toTunCh ++ [OutPkt.icmpUnreachable ICMPCode.protocolUnreachable h] },
         [Effect.bufPut 0])) := by
  refine ⟨?_, ?_, ?_⟩
  · intro s h hsz hfr hp
    simp only [handlePacket]
    rw [if_neg hsz, if_neg hfr]
    simp [classify, hp,
          ipprotoTCP, ipprotoUDP, ipprotoICMP, ipprotoICMPV6]
  · intro s h hsz hfr hp
    simp only [handlePacket]
    rw [if_neg hsz, if_neg hfr]
    simp [classify, hp,
          ipprotoTCP, ipprotoUDP, ipprotoICMP, ipprotoICMPV6]
  · intro s h hsz hfr h1 h2 h3 h4
    simp only [handlePacket]
    rw [if_neg hsz, if_neg hfr]
    simp [classify, h1, h2, h3, h4, enqueueTun]

/-- C8 witness: an ICMPv6 packet is logged and dropped; a protocol-99
packet gets the protocol-unreachable reply. -/
theorem C8_icmp_and_unknown_protocol_witness :
    handlePacket d0 (some hdrC8w6) =
      (d0, [Effect.logICMPDebug, Effect.bufPut 0]) ∧
    handlePacket d0 (some hdrC8wo) =
      ({ d0 with toTunCh :=
          d0.toTunCh ++ [OutPkt.icmpUnreachable ICMPCode.protocolUnreachable hdrC8wo] },
       [Effect.bufPut 0]) :=
  ⟨C8_icmp_and_unknown_protocol.2.1 d0 hdrC8w6 (by decide) (by decide)
      (by decide),
   C8_icmp_and_unknown_protocol.2.2 d0 hdrC8wo (by decide) (by decide)
      (by decide) (by decide) (by decide) (by decide)⟩

/-- Every branch of the protocol switch disposes of the buffer it was
given exactly once. -/
theorem disposals_classify_self (s : DState) (bid : Nat) (h : Hdr) :
    disposals (classify s bid h).2 bid = 1 := by
  unfold classify dispatchTCP dispatchUDP
  repeat' split
  all_goals simp [disposals, isDisposal]

/-- No branch of the protocol switch touches any other buffer. -/
theorem disposals_classify_ne (s : DState) (bid j : Nat) (h : Hdr)
    (hne : j ≠ bid) :
    disposals (classify s bid h).2 j = 0 := by
  have hb : (bid == j) = false := by
    simp only [beq_eq_false_iff_ne, ne_eq]
    exact fun hc => hne hc.symm
  unfold classify dispatchTCP dispatchUDP
  repeat' split
  all_goals simp [disposals, isDisposal, hb]

/-- The protocol switch never acquires a buffer. -/
theorem acquired_not_in_classify (s : DState) (bid j : Nat) (h : Hdr) :
    Effect.bufAcquired j ∉ (classify s bid h).2 := by
  unfold classify dispatchTCP dispatchUDP
  repeat' split
  all_goals simp

/-- C9: every buffer is disposed of exactly once.  The buffer read from
the device (id 0) is, on every path of handlePacket, either released
back to the pool, transferred to the tcp or udp path, or consumed by
the fragment reassembler — exactly once.  A buffer produced by
reassembly (id 1) is disposed of exactly once when it is acquired and
never otherwise.  The device writer, on receiving a queued packet,
releases that packet's buffer after the write attempt whether or not
the write failed. -/
theorem C9_buffer_once :
    (∀ (s : DState) (p : Option Hdr),
        disposals (handlePacket s p).2 0 = 1) ∧
    (∀ (s : DState) (p : Option Hdr),
        Effect.bufAcquired 1 ∈ (handlePacket s p).2 →
        disposals (handlePacket s p).2 1 = 1) ∧
    (∀ (s : DState) (p : Option Hdr),
        Effect.bufAcquired 1 ∉ (handlePacket s p).2 →
        disposals (handlePacket s p).2 1 = 0) ∧
    (∀ (s : DState) (e : Bool) (pkt : OutPkt) (rest : List OutPkt),
        s.toTunCh = pkt :: rest →
        writerStep s e =
          ({ s with toTunCh := rest },
           [Effect.devWrite pkt e, Effect.softReleasePkt pkt])) := by
  refine ⟨?_, ?_, ?_, ?_⟩
  · intro s p
    cases p with
    | none => simp [handlePacket, disposals, isDisposal]
    | some h =>
      simp only [handlePacket]
      split
      · simp [disposals, isDisposal]
      · split
        · split
          next fm heq => simp [disposals, isDisposal]
          next fm heq =>
            have hc := disposals_classify_ne { s with fragmentMap := fm } 1 0
              h (by decide)
            simp only [disposals, List.countP_cons] at hc ⊢
            simp [isDisposal, hc]
        · simpa [disposals] using disposals_classify_self s 0 h
  · intro s p
    cases p with
    | none => intro hmem; simp [handlePacket] at hmem
    | some h =>
      simp only [handlePacket]
      split
      · intro hmem; simp at hmem
      · split
        · split
          next fm heq => intro hmem; simp at hmem
          next fm heq =>
            intro hmem
            have hc := disposals_classify_self { s with fragmentMap := fm } 1 h
            simp only [disposals, List.countP_cons] at hc ⊢
            simp [isDisposal, hc]
        · intro hmem
          exact absurd hmem (acquired_not_in_classify s 0 1 h)
  · intro s p
    cases p with
    | none => intro _; simp [handlePacket, disposals, isDisposal]
    | some h =>
      simp only [handlePacket]
      split
      · intro _; simp [disposals, isDisposal]
      · split
        · split
          next fm heq => intro _; simp [disposals, isDisposal]
          next fm heq => intro hmem; simp at hmem
        · intro _
          simpa [disposals] using disposals_classify_ne s 0 1 h (by decide)
  · intro s e pkt rest hq
    unfold writerStep
    rw [hq]

/-- C9 witness: an unparseable packet's buffer never spawns a
reassembled buffer and buffer 1 sees no disposal; a queued reset packet
is written (here: with a failing write) and its buffer is released
anyway. -/
theorem C9_buffer_once_witness :
    disposals (handlePacket d0 none).2 1 = 0 ∧
    writerStep dW9 true =
      ({ dW9 with toTunCh := [] },
       [Effect.devWrite (OutPkt.tcpReset hdrC6w) true,
        Effect.softReleasePkt (OutPkt.tcpReset hdrC6w)]) :=
  ⟨C9_buffer_once.2.2.1 d0 none (by decide),
   C9_buffer_once.2.2.2 dW9 true (OutPkt.tcpReset hdrC6w) [] rfl⟩

/-- C1 counterexample: from a state with one still-live handler and one
incoming SYN packet, the schedule traceC1 lets Stop execute its first
two statements (the flag moves to closing and CloseAll is signalled)
and then block in the handlersWg wait; the reader's loop guard
(closing = 1 < 2) still passes, the packet is read and dispatched, and
a brand-new flow handler is created and registered while Stop is in
progress — refuting the claim that after Stop is invoked no new flow
handler is created for any packet dispatched afterwards.  The final
observation: Stop is still at its wait (stopPC = 2), the flag is
closing (1), the new flow's handler exists, and the live-handler count
grew to 2. -/
theorem C1_counterexample :
    (run sysInitC1 traceC1).map
      (fun y => (y.stopPC, y.d.closing,
        Pool.lookup y.d.handlers (connIDOf ipprotoTCP hdrSynC1),
        y.d.handlersWg)) =
      some (2, 1, some ⟨1, HKind.hkTCP⟩, 2) := by decide

/-- C1 amended: the Stop choreography holds statement by statement —
Stop first sets the flag to closing (enabled only at its entry), then
signals every registered handler to close, then passes its wait only in
a state where every previously-live handler's task has finished
(handlersWg = 0), then sets the flag to closed, and only in that final
position (after the wait, flag already closed) closes the device;
moreover once the flag is closed the device reader can read no further
packet (its read step requires closing < 2), so no handler is created
for any packet read after Stop completes.  A packet read while Stop is
still in progress may however still be dispatched and create a handler,
as the per-packet path never consults the flag. -/
theorem C1_stop_choreography :
    (∀ y z : Sys, stepF y Label.stopSetClosing = some z →
        y.stopPC = 0 ∧ z.stopPC = 1 ∧ z.d.closing = 1) ∧
    (∀ y z : Sys, stepF y Label.stopCloseAll = some z →
        y.stopPC = 1 ∧ z.stopPC = 2 ∧ z.d.closeSignaled = true) ∧
    (∀ y z : Sys, stepF y Label.stopWait = some z →
        y.stopPC = 2 ∧ y.d.handlersWg = 0 ∧ z.stopPC = 3) ∧
    (∀ y z : Sys, stepF y Label.stopSetClosed = some z →
        y.stopPC = 3 ∧ z.stopPC = 4 ∧ z.d.closing = 2) ∧
    (∀ y z : Sys, stepF y Label.stopCloseDev = some z →
        y.stopPC = 4 ∧ z.stopPC = 5 ∧ z.d.devClosed = true) ∧
    (∀ y z : Sys, stepF y Label.readerRead = some z →
        y.d.closing < 2) := by
  refine ⟨?_, ?_, ?_, ?_, ?_, ?_⟩
  · intro y z hz
    simp only [stepF] at hz
    split at hz
    · cases hz; exact ⟨by assumption, rfl, rfl⟩
    · simp at hz
  · intro y z hz
    simp only [stepF] at hz
    split at hz
    · cases hz; exact ⟨by assumption, rfl, rfl⟩
    · simp at hz
  · intro y z hz
    simp only [stepF] at hz
    split at hz
    next hc => cases hz; exact ⟨hc.1, hc.2, rfl⟩
    · simp at hz
  · intro y z hz
    simp only [stepF] at hz
    split at hz
    · cases hz; exact ⟨by assumption, rfl, rfl⟩
    · simp at hz
  · intro y z hz
    simp only [stepF] at hz
    split at hz
    · cases hz; exact ⟨by assumption, rfl, rfl⟩
    · simp at hz
  · intro y z hz
    simp only [stepF] at hz
    split at hz
    · simp at hz
    · split at hz
      next hc => exact hc.2
      · simp at hz

/-- C1 witness: with no live handler the wait passes (its enabling
condition is discharged at sysWaitC1), and a running system's read step
witnesses the closing < 2 requirement. -/
theorem C1_stop_choreography_witness :
    (sysWaitC1.stopPC = 2 ∧ sysWaitC1.d.handlersWg = 0
      ∧ sysWaitC1x.stopPC = 3) ∧
    sysReadC1.d.closing < 2 :=
  ⟨C1_stop_choreography.2.2.1 sysWaitC1 sysWaitC1x (by decide),
   C1_stop_choreography.2.2.2.2.2 sysReadC1 sysReadC1x (by decide)⟩

end TunDispatcher
